import Mathlib

/-
Verification of the agent-decision workflow of the AI-agent personalization
backend (files `app/agent.py`, `app/main.py`, `app/models.py`, `app/config.py`).

The Python code is shallowly embedded: JSON-like runtime values become the
inductive type `Value`, fallible Python expressions become `Except String`
computations (the carried string names the Python exception), and the
database connection becomes an explicit record of table rows.  External
effects (the HTTP call to the LLM endpoint, the time-windowed SQL query)
are passed in as explicit parameters.
-/

set_option autoImplicit false
set_option maxRecDepth 100000

/-- A Python runtime value as it occurs in this program: JSON data
(`None`, `bool`, `str`, numbers, `list`, `dict`) plus `datetime` objects,
which appear because `handle_event` passes `event.dict()` around and the
pydantic model's `timestamp` field is a `datetime`.  Numbers are modelled
as rationals (`int` and `float` literals of the source both embed; no
claim performs arithmetic on them). -/
inductive Value where
  | null
  | b (x : Bool)
  | s (x : String)
  | num (x : ℚ)
  | arr (xs : List Value)
  | obj (kvs : List (String × Value))
  | dt (iso : String)
deriving Repr

/-- Python truthiness (`bool(v)`) for the values above: `None` is falsy,
empty strings/lists/dicts and zero are falsy, `datetime` objects are truthy. -/
def truthy : Value → Bool
  | .null => false
  | .b x => x
  | .s x => !(x = "")
  | .num q => !(q = 0)
  | .arr xs => !xs.isEmpty
  | .obj kvs => !kvs.isEmpty
  | .dt _ => true

/-- Python `v.get(key, default)`: defined for `dict` values (Python dict keys
are unique, so first-match lookup agrees with dict lookup); on any other
receiver the attribute access raises `AttributeError` (notably on `None`,
which is how `result.get("action", {})` can blow up in `handle_event` when
the stored value of `"action"` is `None`). -/
def pyDictGet : Value → String → Value → Except String Value
  | .obj kvs, k, dflt => .ok ((kvs.lookup k).getD dflt)
  | .null, _, _ => .error "AttributeError: NoneType object has no attribute get"
  | _, _, _ => .error "AttributeError: object has no attribute get"

/-- Python `v[key]` for a string key: `dict` indexing raises `KeyError` when
the key is missing; non-dict receivers raise `TypeError`. -/
def pyIndex : Value → String → Except String Value
  | .obj kvs, k =>
    match kvs.lookup k with
    | some v => .ok v
    | none => .error ("KeyError: " ++ k)
  | _, _ => .error "TypeError: value is not subscriptable with a string key"

/-- `str.lower` restricted to the alphabets this program uses: ASCII `A`-`Z`
and Cyrillic `А`-`Я`/`Ё` (the only characters occurring in the prompts and
cue words).  Other Unicode uppercase letters are left unchanged; no string
in the repository contains any. -/
def pyLowerChar (c : Char) : Char :=
  if c.toNat ≥ 65 ∧ c.toNat ≤ 90 then Char.ofNat (c.toNat + 32)
  else if c.toNat ≥ 0x410 ∧ c.toNat ≤ 0x42F then Char.ofNat (c.toNat + 32)
  else if c.toNat = 0x401 then Char.ofNat 0x451
  else c

/-- `s.lower()` (see `pyLowerChar`). -/
def pyLower (s : String) : String := String.mk (s.data.map pyLowerChar)

/-- Substring test on character lists, used to embed Python `needle in hay`. -/
def isSubListOf : List Char → List Char → Bool
  | n, [] => n.isEmpty
  | n, c :: t => n.isPrefixOf (c :: t) || isSubListOf n t

/-- Python `needle in hay` for strings (substring containment). -/
def pyIn (needle hay : String) : Bool := isSubListOf needle.data hay.data

/-- Python `s[:n]` (slice of the first `n` code points). -/
def pyTake (n : Nat) (s : String) : String := String.mk (s.data.take n)

/-- The escaping `json.dumps` applies inside string literals, restricted to
the characters that matter here: backslash and double quote.  (Control-code
escaping is not reproduced; no claim inspects the rendered text of a dumped
string, only whether dumping succeeds.) -/
def jsonEscapeChar (c : Char) : List Char :=
  if c = '\\' then ['\\', '\\']
  else if c = '\"' then ['\\', '\"']
  else [c]

/-- Body of `jsonEscape`. -/
def jsonEscapeList : List Char → List Char
  | [] => []
  | c :: t => jsonEscapeChar c ++ jsonEscapeList t

/-- String rendering for `json.dumps`. -/
def jsonEscape (s : String) : String := "\"" ++ String.mk (jsonEscapeList s.data) ++ "\""

/-- Number rendering for `json.dumps`.  CPython's decimal formatting of
floats is not reproduced (integers render faithfully); no claim inspects the
rendered digits of a number. -/
def renderNum (q : ℚ) : String :=
  if q.den = 1 then toString q.num else toString q.num ++ "/" ++ toString q.den

mutual

/-- `json.dumps(v, ensure_ascii=False)`: succeeds on JSON-representable
values and raises `TypeError` on a `datetime` object (CPython:
"Object of type datetime is not JSON serializable"). -/
def jsonDumps : Value → Except String String
  | .null => .ok "null"
  | .b true => .ok "true"
  | .b false => .ok "false"
  | .s x => .ok (jsonEscape x)
  | .num q => .ok (renderNum q)
  | .arr xs =>
    match jsonDumpsList xs with
    | .ok parts => .ok ("[" ++ String.intercalate ", " parts ++ "]")
    | .error e => .error e
  | .obj kvs =>
    match jsonDumpsObj kvs with
    | .ok parts => .ok ("\x7b" ++ String.intercalate ", " parts ++ "\x7d")
    | .error e => .error e
  | .dt _ => .error "TypeError: Object of type datetime is not JSON serializable"

/-- `json.dumps` over the elements of a list. -/
def jsonDumpsList : List Value → Except String (List String)
  | [] => .ok []
  | v :: t =>
    match jsonDumps v with
    | .ok s =>
      match jsonDumpsList t with
      | .ok parts => .ok (s :: parts)
      | .error e => .error e
    | .error e => .error e

/-- `json.dumps` over the entries of a dict. -/
def jsonDumpsObj : List (String × Value) → Except String (List String)
  | [] => .ok []
  | (k, v) :: t =>
    match jsonDumps v with
    | .ok s =>
      match jsonDumpsObj t with
      | .ok parts => .ok ((jsonEscape k ++ ": " ++ s) :: parts)
      | .error e => .error e
    | .error e => .error e

end

/-! ## `str.format` (used by `make_decision`, `generate_text`, `check_quality`)

CPython's `str.format` first parses the template into literal chunks and
replacement fields (`{{`/`}}` unescape to a single brace; a field is
`{name}` or `{name:spec}`, where the spec may itself contain balanced
braces), then substitutes each field from the keyword arguments, raising
`KeyError` for an unknown field name.  Conversion markers (`!r` etc.),
positional/auto-numbered fields and attribute/index access in field names
are not used by any template in this repository and are not modelled (a
bare `{}` or `{0}` would parse as a field whose name is not a keyword,
hence error — the repo never writes one).  Applying a format spec to a
found value is not modelled either: the only spec'd field in the repo (in
the broken default `decision_agent` template) has an unknown name, so
substitution fails before any spec could apply. -/

/-- `'{'` (written via its code point to keep string-scanning simple). -/
def lbraceChar : Char := Char.ofNat 123

/-- `'}'`. -/
def rbraceChar : Char := Char.ofNat 125

/-- One parsed piece of a format template: a literal chunk, or a
replacement field with its name and (ignored) format spec. -/
inductive FmtItem where
  | lit (s : String)
  | field (name : String) (spec : String)
deriving Repr

/-- Parser state for `parseFmt`: the pending literal chunk is accumulated
in reverse; field name and spec likewise. -/
inductive FmtSt where
  | lit (acc : List Char)
  | lbrace (acc : List Char)
  | rbrace (acc : List Char)
  | fname (acc name : List Char)
  | fspec (acc name spec : List Char) (depth : Nat)

/-- Append the pending literal chunk (if any) to the reversed item list. -/
def flushLit (acc : List Char) (items : List FmtItem) : List FmtItem :=
  if acc.isEmpty then items else .lit (String.mk acc.reverse) :: items

/-- The template scanner of `str.format` as a character-driven state
machine; returns the parsed items in order. -/
def parseFmt : List Char → FmtSt → List FmtItem → Except String (List FmtItem)
  | [], .lit acc, items => .ok (flushLit acc items).reverse
  | [], .lbrace _, _ => .error "ValueError: Single \x7b encountered in format string"
  | [], .rbrace _, _ => .error "ValueError: Single \x7d encountered in format string"
  | [], .fname _ _, _ => .error "ValueError: expected \x7d before end of string"
  | [], .fspec _ _ _ _, _ => .error "ValueError: unmatched \x7b in format spec"
  | c :: t, .lit acc, items =>
    if c = lbraceChar then parseFmt t (.lbrace acc) items
    else if c = rbraceChar then parseFmt t (.rbrace acc) items
    else parseFmt t (.lit (c :: acc)) items
  | c :: t, .lbrace acc, items =>
    if c = lbraceChar then parseFmt t (.lit (lbraceChar :: acc)) items
    else if c = rbraceChar then
      -- `{}`: an auto-numbered positional field; parsed as a field with
      -- empty name (no template in the repo contains one).
      parseFmt t (.lit []) (.field "" "" :: flushLit acc items)
    else if c = ':' then parseFmt t (.fspec acc [] [] 0) items
    else parseFmt t (.fname acc [c]) items
  | c :: t, .rbrace acc, items =>
    if c = rbraceChar then parseFmt t (.lit (rbraceChar :: acc)) items
    else .error "ValueError: Single \x7d encountered in format string"
  | c :: t, .fname acc name, items =>
    if c = rbraceChar then
      parseFmt t (.lit []) (.field (String.mk name.reverse) "" :: flushLit acc items)
    else if c = ':' then parseFmt t (.fspec acc name [] 0) items
    else if c = lbraceChar then .error "ValueError: unexpected \x7b in field name"
    else parseFmt t (.fname acc (c :: name)) items
  | c :: t, .fspec acc name spec depth, items =>
    if c = rbraceChar then
      match depth with
      | 0 => parseFmt t (.lit [])
          (.field (String.mk name.reverse) (String.mk spec.reverse) :: flushLit acc items)
      | d + 1 => parseFmt t (.fspec acc name (c :: spec) d) items
    else if c = lbraceChar then parseFmt t (.fspec acc name (c :: spec) (depth + 1)) items
    else parseFmt t (.fspec acc name (c :: spec) depth) items

/-- Substitution pass of `str.format`: replace each field by the keyword
argument of that name, `KeyError` when absent.  Format specs are not
applied (see the section comment). -/
def renderFmt : List FmtItem → List (String × String) → Except String String
  | [], _ => .ok ""
  | .lit s :: ts, args =>
    match renderFmt ts args with
    | .ok r => .ok (s ++ r)
    | .error e => .error e
  | .field n _ :: ts, args =>
    match args.lookup n with
    | some v =>
      match renderFmt ts args with
      | .ok r => .ok (v ++ r)
      | .error e => .error e
    | none => .error ("KeyError: " ++ n)

/-- `template.format(**args)`. -/
def pyFormat (template : String) (args : List (String × String)) : Except String String :=
  match parseFmt template.data (.lit []) [] with
  | .ok items => renderFmt items args
  | .error e => .error e

/-- Boolean membership of a string in a list of strings. -/
def strMem (n : String) : List String → Bool
  | [] => false
  | k :: t => n == k || strMem n t

/-- Decides, from the template text and argument names alone, that
`str.format` must fail: either the template does not parse, or it contains
a replacement field whose name is not among the keyword arguments. -/
def fmtBad (template : String) (keys : List String) : Bool :=
  match parseFmt template.data (.lit []) [] with
  | .error _ => true
  | .ok items =>
    items.any fun it =>
      match it with
      | .field n _ => !strMem n keys
      | .lit _ => false

example : pyFormat "a \x7bx\x7d b" [("x", "V")] = .ok "a V b" := by rfl
example : pyFormat "a \x7b\x7b c \x7d\x7d \x7bx\x7d" [("x", "V")] = .ok "a \x7b c \x7d V" := by rfl
example : pyFormat "\x7by\x7d" [("x", "V")] = .error "KeyError: y" := by rfl
example : pyFormat "oops \x7d" [] = .error "ValueError: Single \x7d encountered in format string" := by rfl
example : pyFormat "\x7bn: spec \x7bq\x7d rest\x7d" [("n", "V")] = .ok "V" := by rfl
example : fmtBad "\x7by\x7d" ["x"] = true := by decide

example : jsonDumps (.obj [("a", .num 0), ("b", .null)]) = .ok "\x7b\"a\": 0, \"b\": null\x7d" := by rfl
example : jsonDumps (.obj [("t", .dt "2024")]) = .error "TypeError: Object of type datetime is not JSON serializable" := by rfl
example : pyIn "решение" (pyLower "РЕШЕНИЕ принято") = true := by decide
example : pyIn "должно" "решение" = false := by decide
example : truthy (.s "") = false := by decide

/-! ## `app/agent.py`: the `PersonalizationAgent` -/

/-- The hardcoded fallback `decision_agent` prompt of
`PersonalizationAgent._get_default_prompt` (agent.py lines 32-48),
transcribed verbatim.  Note its JSON example uses single (unescaped)
braces, so `str.format` parses it as a replacement field named
`\n  "should_engage"` whose format spec swallows the rest of the block. -/
def default_decision_agent_template : String := "Ты — AI-агент по персонализации коммуникаций.

Контекст:
- Пользователь: \x7buser_profile\x7d
- Событие: \x7bevent\x7d
- История за 24ч: \x7brecent_activity\x7d

Реши, нужно ли отправить сообщение. Ответь JSON:
\x7b
  \"should_engage\": true/false,
  \"reasoning\": \"почему\",
  \"action\": \x7b
    \"type\": \"email\" или \"push\" или null,
    \"subject\": \"тема\",
    \"body\": \"текст\"
  \x7d
\x7d"

/-- The hardcoded fallback `text_generator` prompt
(agent.py lines 50-56), transcribed verbatim. -/
def default_text_generator_template : String := "Напиши персонализированное сообщение для \x7bchannel\x7d.

Клиент: \x7bname\x7d
Интересы: \x7binterests\x7d
Сегмент: \x7bsegment\x7d

Email: до 150 слов. Push: до 80 символов."

/-- `PersonalizationAgent._get_default_prompt` (agent.py lines 29-58): a
two-entry dict lookup with `.get(name, "")`. -/
def _get_default_prompt (name : String) : String :=
  if name = "decision_agent" then default_decision_agent_template
  else if name = "text_generator" then default_text_generator_template
  else ""

/-- A row of the `prompts` table, restricted to the columns the code reads
(`name`, `template`, `is_active`; `name` is declared UNIQUE in the schema).
The `id`, `description` and timestamp columns are never consulted. -/
structure PromptRow where
  name : String
  template : String
  is_active : Bool

/-- `PersonalizationAgent.get_prompt_template` (agent.py lines 17-27):
`SELECT template FROM prompts WHERE name = ? AND is_active = 1` /
`fetchone()` (first matching row), falling back to the defaults. -/
def get_prompt_template (store : List PromptRow) (name : String) : String :=
  match store.find? (fun r => r.name == name && r.is_active) with
  | some r => r.template
  | none => _get_default_prompt name

/-- The canned engagement decision of `_mock_response`
(agent.py lines 189-198). -/
def mock_decision_value : Value :=
  .obj [("should_engage", .b true),
        ("reasoning", .s "Пользователь добавил товар в корзину, но не завершил покупку. Это хороший момент для напоминания."),
        ("action", .obj
          [("type", .s "email"),
           ("subject", .s "Забыли что-то в корзине?"),
           ("body", .s "Здравствуйте! Мы заметили, что вы добавили товары в корзину, но не завершили покупку. Готовы оформить заказ?"),
           ("recommendations", .arr [])])]

/-- The canned generated text of `_mock_response` (agent.py lines 200-202). -/
def mock_text_value : Value :=
  .obj [("text", .s "Здравствуйте! У нас есть специальное предложение для вас. Проверьте свою корзину!")]

/-- The canned quality verdict of `_mock_response` (agent.py lines 204-217). -/
def mock_quality_value : Value :=
  .obj [("overall_score", .num 0.85),
        ("criteria_scores", .obj
          [("grammar", .num 0.9), ("tone", .num 0.8), ("personalization", .num 0.7),
           ("relevance", .num 0.9), ("spam_score", .num 0.2), ("ethics", .num 1.0)]),
        ("approved", .b true),
        ("comments", .s ""),
        ("suggested_improvement", .s "")]

/-- `PersonalizationAgent._mock_response` (agent.py lines 185-219): a pure
keyword dispatch on the prompt text.  The cues are `"решение" in
prompt.lower() or "should_engage" in prompt`, then `"текст"`/`"напиши"`,
then `"проверь"`/`"quality"`, else a generic echo of the first 100
characters. -/
def _mock_response (prompt : String) : Value :=
  if pyIn "решение" (pyLower prompt) || pyIn "should_engage" prompt then
    mock_decision_value
  else if pyIn "текст" (pyLower prompt) || pyIn "напиши" (pyLower prompt) then
    mock_text_value
  else if pyIn "проверь" (pyLower prompt) || pyIn "quality" (pyLower prompt) then
    mock_quality_value
  else
    .obj [("text", .s "Мок-ответ"), ("raw", .s (pyTake 100 prompt))]

/-- The outcome of the single `httpx.post` to the chat-completion endpoint,
as observed by `_call_llm`:
* `exc m` — any exception raised inside the `try` block (transport failure,
  malformed response body, missing `choices`/`message`/`content` keys);
* `resp status content parsed` — the call produced a response with the
  given status code whose first choice's message content is `content`;
  `parsed` records the result of the `json.loads(content)` attempt
  (`some v` when `content` parses as JSON value `v`, `none` when
  `json.loads` raises `JSONDecodeError`).
The request payload (model name, temperature, system message) only shapes
the outgoing request and is summarized away by this oracle. -/
inductive NetOutcome where
  | exc (msg : String)
  | resp (status : Nat) (content : String) (parsed : Option Value)

/-- `PersonalizationAgent._call_llm` (agent.py lines 139-183).  With no API
key the network is skipped and the mock is returned; the `try`/`except
Exception` wrapper turns every failure (transport error or non-200 status)
into the mock as well, so the function is total — it never propagates an
exception. -/
def _call_llm (api_key : String) (net : NetOutcome)
    (prompt _system_message : String) : Value :=
  if api_key = "" then _mock_response prompt
  else
    match net with
    | .exc _ => _mock_response prompt
    | .resp status content parsed =>
      if status = 200 then
        match parsed with
        | some v => v
        | none => .obj [("text", .s content), ("raw", .s content)]
      else _mock_response prompt

/-- `PersonalizationAgent.make_decision` (agent.py lines 60-70): fetch the
`decision_agent` template, `json.dumps` the three context arguments (in
keyword order — CPython evaluates them left to right, so a serialization
error on `event` preempts the format call), `str.format` the template, and
delegate to `_call_llm`. -/
def make_decision (store : List PromptRow) (api_key : String) (net : NetOutcome)
    (user_profile event recent_activity : Value) : Except String Value :=
  let prompt_template := get_prompt_template store "decision_agent"
  match jsonDumps user_profile with
  | .error e => .error e
  | .ok up =>
    match jsonDumps event with
    | .error e => .error e
    | .ok ev =>
      match jsonDumps recent_activity with
      | .error e => .error e
      | .ok ra =>
        match pyFormat prompt_template
            [("user_profile", up), ("event", ev), ("recent_activity", ra)] with
        | .error e => .error e
        | .ok prompt => .ok (_call_llm api_key net prompt "Ты — AI-агент персонализации")

/-- The static verdict `check_quality` returns when no quality template is
configured (agent.py lines 94-107). -/
def default_quality_value : Value :=
  .obj [("overall_score", .num 0.9),
        ("criteria_scores", .obj
          [("grammar", .num 1.0), ("tone", .num 0.9), ("personalization", .num 0.8),
           ("relevance", .num 0.9), ("spam_score", .num 0.1), ("ethics", .num 1.0)]),
        ("approved", .b true),
        ("comments", .s ""),
        ("suggested_improvement", .s "")]

/-- `PersonalizationAgent.check_quality` (agent.py lines 88-114): when the
template lookup yields the empty string (`if not prompt_template`), return
the static verdict without touching the LLM; otherwise format the stored
template and delegate to `_call_llm`. -/
def check_quality (store : List PromptRow) (api_key : String) (net : NetOutcome)
    (message : String) (user_context : Value) : Except String Value :=
  let prompt_template := get_prompt_template store "quality_checker"
  if prompt_template = "" then
    .ok default_quality_value
  else
    match jsonDumps user_context with
    | .error e => .error e
    | .ok uc =>
      match pyFormat prompt_template [("message", message), ("user_context", uc)] with
      | .error e => .error e
      | .ok prompt => .ok (_call_llm api_key net prompt "Ты — строгий редактор")

example : get_prompt_template [] "quality_checker" = "" := by rfl
example : _mock_response "решение" = mock_decision_value := by rfl
example : _mock_response "привет quality" = mock_quality_value := by rfl
example : _mock_response "ДОЛЖНО" = .obj [("text", .s "Мок-ответ"), ("raw", .s "ДОЛЖНО")] := by rfl
example : fmtBad default_decision_agent_template ["user_profile", "event", "recent_activity"] = true := by decide
example : make_decision [] "" (.exc "boom") (.obj []) (.obj []) (.arr [])
    = .error "KeyError: \n  \"should_engage\"" := by rfl

/-! ## `app/models.py`: the prompt rows seeded by `init_db` -/

/-- The `decision_agent` template seeded by `init_db`
(models.py lines 110-141), transcribed verbatim.  Unlike the hardcoded
default, its JSON example escapes braces as `\x7b\x7b`/`\x7d\x7d`, so
`str.format` succeeds on it. -/
def seeded_decision_agent_template : String := "Ты — AI-агент по персонализации коммуникаций с клиентами интернет-магазина.

**Контекст:**
- Пользователь: \x7buser_profile\x7d
- Только что произошло событие: \x7bevent\x7d
- История взаимодействий за последние 24 часа: \x7brecent_activity\x7d

**Твоя задача:**
Проанализируй ситуацию и реши, нужно ли отправить клиенту персонализированное сообщение. Если да — выбери тип сообщения, канал и сгенерируй текст.

**Инструменты, которые у тебя есть:**
1. send_email(recipient, subject, body) — отправить email
2. send_push(user_id, title, body) — отправить push-уведомление
3. get_recommendations(user_id, category) — получить рекомендации товаров
4. get_user_profile(user_id) — получить полный профиль

**Правила:**
- Не отправляй больше 1 сообщения в час одному пользователю
- Для VIP-клиентов (покупки > 10000 руб) можно делать исключение
- Избегай навязчивости: если пользователь только что зашёл, не пиши сразу

**Формат ответа (строго JSON):**
\x7b\x7b
  \"should_engage\": true/false,
  \"reasoning\": \"краткое объяснение почему\",
  \"action\": \x7b\x7b
    \"type\": \"email\" или \"push\" или null,
    \"subject\": \"тема если email\",
    \"body\": \"текст сообщения\",
    \"recommendations\": [\"product1\", \"product2\"]
  \x7d\x7d
\x7d\x7d"

/-- The `text_generator` template seeded by `init_db`
(models.py lines 143-167), transcribed verbatim. -/
def seeded_text_generator_template : String := "Ты — профессиональный копирайтер, специализирующийся на персонализированных email-рассылках и push-уведомлениях.

**Данные о клиенте:**
- Имя: \x7bname\x7d
- Интересы: \x7binterests\x7d
- Последние просмотры: \x7brecent_views\x7d
- История покупок: \x7bpurchase_history\x7d
- Сегмент: \x7bsegment\x7d

**Задача:**
Напиши короткое персонализированное сообщение для \x7bchannel\x7d (email/push) на русском языке.

**Условия:**
- Email: до 150 слов, дружелюбный тон
- Push: до 80 символов, ёмко
- Упомяни конкретные товары
- Добавь призыв к действию

**Тон коммуникации:**
- Для новых клиентов: приветственный, обучающий
- Для постоянных: благодарственный, эксклюзивный
- Для VIP: персональный
- Для спящих: возвращающий, с выгодным предложением

**Твой ответ (только текст сообщения):**"

/-- The `quality_checker` template seeded by `init_db`
(models.py lines 169-199), transcribed verbatim. -/
def seeded_quality_checker_template : String := "Ты — строгий редактор, проверяющий сообщения перед отправкой клиентам.

**Исходное сообщение:**
\x7bmessage\x7d

**Контекст клиента:**
\x7buser_context\x7d

**Проверь по критериям (оценка от 0 до 1):**
1. Грамматика и орфография
2. Тон — соответствует ли бренду
3. Персонализация
4. Релевантность
5. Навязчивость
6. Этичность

**Формат ответа JSON:**
\x7b\x7b
  \"overall_score\": 0.85,
  \"criteria_scores\": \x7b\x7b
    \"grammar\": 0.9,
    \"tone\": 0.8,
    \"personalization\": 0.7,
    \"relevance\": 0.9,
    \"spam_score\": 0.2,
    \"ethics\": 1.0
  \x7d\x7d,
  \"approved\": true/false,
  \"comments\": \"замечания\",
  \"suggested_improvement\": \"улучшенная версия\"
\x7d\x7d"

/-- The `prompts` table right after a fresh `init_db` (models.py lines
109-209): the three seeded rows, inserted in this order, each with
`is_active` left at its schema default of 1. -/
def seeded_prompts : List PromptRow :=
  [⟨"decision_agent", seeded_decision_agent_template, true⟩,
   ⟨"text_generator", seeded_text_generator_template, true⟩,
   ⟨"quality_checker", seeded_quality_checker_template, true⟩]

/-! ## `app/main.py`: the `/api/event` handler

The database connection becomes an explicit `DB` record.  Every `INSERT`
in `handle_event` is immediately followed by `db.commit()` before anything
that can raise, so committed state is modelled by applying each insert as
it happens; when a later step raises, the state reached so far is returned
alongside the error (matching SQLite semantics: the earlier commits
persist, and the connection is closed by the context manager).  The
AUTOINCREMENT `id` columns and the `sent_at`/`updated_at` columns are
omitted from the row models: nothing in the code reads them.  The
time-windowed query for `recent_activity` (last 24 hours, LIMIT 10)
depends on the wall clock and is passed in as the parameter `recent`; the
`datetime.now()` values inserted into rows are passed as `now`.
`send_email`/`send_push` are print-only stubs and change no state. -/

/-- The validated request body of `POST /api/event` (the pydantic `Event`
model, main.py lines 34-39).  `timestamp` is coerced by pydantic to a
`datetime` object — which is why `event.dict()` is not JSON-serializable.
`properties` is parsed from the request JSON, so it is a JSON value. -/
structure EventIn where
  user_id : String
  event : String
  product_id : Option String
  timestamp : String
  properties : Value

/-- A row of the `users` table (columns the code consults). -/
structure UserRow where
  user_id : String
  name : String
  email : Option String
  phone : Option String
  segment : String
  total_spent : ℚ
  interests : Option String
  created_at : String

/-- A row of the `events` table. -/
structure EventRow where
  user_id : String
  event_type : String
  product_id : Option String
  timestamp : String
  properties : String

/-- A row of the `messages` table.  `message_type`, `subject` and
`content` receive whatever Python values the decision's action carried. -/
structure MsgRow where
  user_id : String
  message_type : Value
  subject : Value
  content : Value
  status : String
  created_at : String

/-- The SQLite database as seen by `handle_event`. -/
structure DB where
  users : List UserRow
  events : List EventRow
  messages : List MsgRow
  prompts : List PromptRow

/-- The policy constants of `app/config.py` (`Settings`, lines 27-28).
They are available globally (`from app.config import settings`) but —
as claim C8 states — never consulted by `handle_event`; the embedding
threads them through to make that independence statable. -/
structure AppSettings where
  MAX_MESSAGES_PER_HOUR : Int
  VIP_THRESHOLD : ℚ

/-- `Option String` column value as a Python value. -/
def optStr : Option String → Value
  | none => .null
  | some x => .s x

/-- `dict(user_row)` for an existing user (main.py line 112), restricted
to the modelled columns; every value is JSON-serializable (SQLite returns
text/real/NULL). -/
def user_row_value (u : UserRow) : Value :=
  .obj [("user_id", .s u.user_id), ("name", .s u.name), ("email", optStr u.email),
        ("phone", optStr u.phone), ("segment", .s u.segment),
        ("total_spent", .num u.total_spent), ("interests", optStr u.interests),
        ("created_at", .s u.created_at)]

/-- `event.dict()` (main.py line 125): the pydantic field order, with the
`timestamp` field still a `datetime` object. -/
def event_dict_value (ev : EventIn) : Value :=
  .obj [("user_id", .s ev.user_id), ("event", .s ev.event),
        ("product_id", optStr ev.product_id), ("timestamp", .dt ev.timestamp),
        ("properties", ev.properties)]

/-- The message-creation step of `handle_event` (main.py lines 128-145),
given the decision `result` returned by `make_decision`: evaluate
`result.get("should_engage") and result.get("action", {}).get("type")`
with Python short-circuiting, and if truthy, insert exactly one `messages`
row with status `"pending"` (the INSERT's argument tuple
`action["type"]`, `action.get("subject", "")`, `action.get("body", "")`
is evaluated before the insert, so an exception there inserts nothing).
The e-mail/push stubs that follow only print.  Returns the updated state
and the endpoint's response value. -/
def process_decision (_cfg : AppSettings) (st : DB) (uid : String)
    (result : Value) (now : String) : DB × Except String Value :=
  match pyDictGet result "should_engage" .null with
  | .error e => (st, .error e)
  | .ok se =>
    if truthy se then
      match pyDictGet result "action" (.obj []) with
      | .error e => (st, .error e)
      | .ok a =>
        match pyDictGet a "type" .null with
        | .error e => (st, .error e)
        | .ok t =>
          if truthy t then
            match pyIndex result "action" with
            | .error e => (st, .error e)
            | .ok act =>
              match pyIndex act "type" with
              | .error e => (st, .error e)
              | .ok tv =>
                match pyDictGet act "subject" (.s ""), pyDictGet act "body" (.s "") with
                | .ok subj, .ok body =>
                  let st2 : DB :=
                    { st with messages :=
                        st.messages ++ [⟨uid, tv, subj, body, "pending", now⟩] }
                  (st2, .ok (.obj [("status", .s "processed"), ("agent_decision", result)]))
                | .error e, _ => (st, .error e)
                | _, .error e => (st, .error e)
          else
            (st, .ok (.obj [("status", .s "processed"), ("agent_decision", result)]))
    else
      (st, .ok (.obj [("status", .s "processed"), ("agent_decision", result)]))

/-- The tail of `handle_event` after the profile is in hand (main.py lines
125-145): call `make_decision` (whose exception propagates past the two
already-committed inserts) and then the message-creation step. -/
def decide_and_store (cfg : AppSettings) (api_key : String) (net : NetOutcome)
    (st : DB) (ev : EventIn) (recent : List Value) (profile : Value)
    (now : String) : DB × Except String Value :=
  match make_decision st.prompts api_key net profile (event_dict_value ev) (.arr recent) with
  | .error e => (st, .error e)
  | .ok result => process_decision cfg st ev.user_id result now

/-- `handle_event` (main.py lines 87-145): insert (and commit) the event
row, look the user up and create it with segment `"new"` / `total_spent 0`
when absent, fetch recent activity (the `recent` parameter), then decide
and possibly store a message. -/
def handle_event (cfg : AppSettings) (api_key : String) (net : NetOutcome)
    (st : DB) (ev : EventIn) (recent : List Value) (now : String) :
    DB × Except String Value :=
  match jsonDumps ev.properties with
  | .error e => (st, .error e)
  | .ok props =>
    let st1 : DB :=
      { st with events :=
          st.events ++ [⟨ev.user_id, ev.event, ev.product_id, ev.timestamp, props⟩] }
    match st1.users.find? (fun u => u.user_id == ev.user_id) with
    | none =>
      let newUser : UserRow :=
        ⟨ev.user_id, "User_" ++ ev.user_id, none, none, "new", 0, none, now⟩
      let st2 : DB := { st1 with users := st1.users ++ [newUser] }
      let profile : Value :=
        .obj [("user_id", .s ev.user_id), ("name", .s ("User_" ++ ev.user_id)),
              ("segment", .s "new"), ("total_spent", .num 0)]
      decide_and_store cfg api_key net st2 ev recent profile now
    | some u =>
      decide_and_store cfg api_key net st1 ev recent (user_row_value u) now

example :
    (handle_event ⟨1, 10000⟩ "" (.exc "x") ⟨[], [], [], seeded_prompts⟩
      ⟨"u1", "cart_abandon", none, "2024-01-01T00:00:00", .obj []⟩ [] "NOW").2
    = .error "TypeError: Object of type datetime is not JSON serializable" := by rfl

/-! ## Helper lemmas -/

/-- A successful association-list lookup means the key occurs among the keys. -/
theorem lookup_some_strMem {β : Type} (n : String) (args : List (String × β)) (v : β)
    (h : args.lookup n = some v) : strMem n (args.map Prod.fst) = true := by
  induction args with
  | nil => simp [List.lookup] at h
  | cons p t ih =>
    obtain ⟨k, w⟩ := p
    cases hk : n == k with
    | true => simp [strMem, hk]
    | false =>
      simp only [List.lookup, hk] at h
      simp [strMem, hk, ih h]

/-- If some replacement field of the parsed template names a key that is
not among the argument names, the substitution pass fails. -/
theorem renderFmt_error_of_bad (items : List FmtItem) (args : List (String × String))
    (h : (items.any fun it =>
        match it with
        | .field n _ => !strMem n (args.map Prod.fst)
        | .lit _ => false) = true) :
    ∃ e, renderFmt items args = .error e := by
  induction items with
  | nil => simp at h
  | cons it ts ih =>
    cases it with
    | lit s =>
      simp only [List.any_cons, Bool.or_eq_true] at h
      rcases h with h | h
      · simp at h
      · obtain ⟨e, he⟩ := ih h
        exact ⟨e, by simp [renderFmt, he]⟩
    | field n sp =>
      cases hl : args.lookup n with
      | none => exact ⟨"KeyError: " ++ n, by simp [renderFmt, hl]⟩
      | some v =>
        have hc := lookup_some_strMem n args v hl
        simp only [List.any_cons, Bool.or_eq_true, hc, Bool.not_true] at h
        rcases h with h | h
        · simp at h
        · obtain ⟨e, he⟩ := ih h
          exact ⟨e, by simp [renderFmt, hl, he]⟩

/-- `fmtBad` is sound: when it reports a problem, `str.format` raises. -/
theorem pyFormat_error_of_fmtBad (template : String) (args : List (String × String))
    (h : fmtBad template (args.map Prod.fst) = true) :
    ∃ e, pyFormat template args = .error e := by
  unfold fmtBad at h
  unfold pyFormat
  cases hp : parseFmt template.data (.lit []) [] with
  | error e => exact ⟨e, rfl⟩
  | ok items =>
    rw [hp] at h
    exact renderFmt_error_of_bad items args h

/-- The message-creation step never touches the `users`, `events` or
`prompts` tables. -/
theorem process_decision_preserves (cfg : AppSettings) (st : DB) (uid : String)
    (result : Value) (now : String) :
    (process_decision cfg st uid result now).1.users = st.users ∧
    (process_decision cfg st uid result now).1.events = st.events ∧
    (process_decision cfg st uid result now).1.prompts = st.prompts := by
  unfold process_decision
  repeat' split
  all_goals simp

/-- The message-creation step does not read the policy constants. -/
theorem process_decision_cfg_eq (c₁ c₂ : AppSettings) (st : DB) (uid : String)
    (result : Value) (now : String) :
    process_decision c₁ st uid result now = process_decision c₂ st uid result now := rfl

/-- `handle_event` does not read the policy constants either. -/
theorem handle_event_cfg_eq (c₁ c₂ : AppSettings) (api_key : String) (net : NetOutcome)
    (st : DB) (ev : EventIn) (recent : List Value) (now : String) :
    handle_event c₁ api_key net st ev recent now = handle_event c₂ api_key net st ev recent now := by
  unfold handle_event decide_and_store
  repeat' split
  all_goals rfl

/-- An engaging decision with a truthy action type appends exactly one
pending message row (main.py lines 128-137). -/
theorem process_decision_engage (cfg : AppSettings) (st : DB) (uid now : String)
    (result act se t : Value)
    (h1 : pyDictGet result "should_engage" .null = .ok se)
    (h2 : truthy se = true)
    (h3 : pyDictGet result "action" (.obj []) = .ok act)
    (h4 : pyDictGet act "type" .null = .ok t)
    (h5 : truthy t = true) :
    ∃ subj body,
      pyDictGet act "subject" (.s "") = .ok subj ∧
      pyDictGet act "body" (.s "") = .ok body ∧
      process_decision cfg st uid result now =
        ({ st with messages := st.messages ++ [⟨uid, t, subj, body, "pending", now⟩] },
         .ok (.obj [("status", .s "processed"), ("agent_decision", result)])) := by
  cases result with
  | obj kvs =>
    cases act with
    | obj akvs =>
      have h1' : (kvs.lookup "should_engage").getD .null = se := by
        simpa [pyDictGet] using h1
      have h3' : (kvs.lookup "action").getD (.obj []) = Value.obj akvs := by
        simpa [pyDictGet] using h3
      have h4' : (akvs.lookup "type").getD .null = t := by
        simpa [pyDictGet] using h4
      cases hla : kvs.lookup "action" with
      | none =>
        rw [hla] at h3'
        simp only [Option.getD_none] at h3'
        cases h3'
        simp [List.lookup] at h4'
        rw [← h4'] at h5
        simp [truthy] at h5
      | some v =>
        rw [hla] at h3'
        simp only [Option.getD_some] at h3'
        cases h3'
        cases hlt : akvs.lookup "type" with
        | none =>
          rw [hlt] at h4'
          simp only [Option.getD_none] at h4'
          rw [← h4'] at h5
          simp [truthy] at h5
        | some tv =>
          rw [hlt] at h4'
          simp only [Option.getD_some] at h4'
          cases h4'
          refine ⟨(akvs.lookup "subject").getD (.s ""), (akvs.lookup "body").getD (.s ""),
            by simp [pyDictGet], by simp [pyDictGet], ?_⟩
          unfold process_decision
          simp only [pyDictGet, h1', h2, if_true, hla, Option.getD_some, pyIndex, hlt]
          simp [h5]
    | null => simp [pyDictGet] at h4
    | b x => simp [pyDictGet] at h4
    | s x => simp [pyDictGet] at h4
    | num x => simp [pyDictGet] at h4
    | arr xs => simp [pyDictGet] at h4
    | dt x => simp [pyDictGet] at h4
  | null => simp [pyDictGet] at h1
  | b x => simp [pyDictGet] at h1
  | s x => simp [pyDictGet] at h1
  | num x => simp [pyDictGet] at h1
  | arr xs => simp [pyDictGet] at h1
  | dt x => simp [pyDictGet] at h1

/-- A non-engaging decision leaves the state untouched. -/
theorem process_decision_skip (cfg : AppSettings) (st : DB) (uid now : String)
    (result se : Value)
    (h1 : pyDictGet result "should_engage" .null = .ok se)
    (h2 : truthy se = false) :
    process_decision cfg st uid result now =
      (st, .ok (.obj [("status", .s "processed"), ("agent_decision", result)])) := by
  cases result with
  | obj kvs =>
    have h1' : (kvs.lookup "should_engage").getD .null = se := by
      simpa [pyDictGet] using h1
    unfold process_decision
    simp [pyDictGet, h1', h2]
  | null => simp [pyDictGet] at h1
  | b x => simp [pyDictGet] at h1
  | s x => simp [pyDictGet] at h1
  | num x => simp [pyDictGet] at h1
  | arr xs => simp [pyDictGet] at h1
  | dt x => simp [pyDictGet] at h1

/-! ## Claims -/

/-- The engagement cue of `_mock_response` as the code actually tests it:
`"решение" in prompt.lower() or "should_engage" in prompt`. -/
def decision_cue (p : String) : Bool :=
  pyIn "решение" (pyLower p) || pyIn "should_engage" p

/-- The text-generation cue: `"текст" in prompt.lower() or "напиши" in
prompt.lower()`. -/
def text_cue (p : String) : Bool :=
  pyIn "текст" (pyLower p) || pyIn "напиши" (pyLower p)

/-- The quality-check cue: `"проверь" in prompt.lower() or "quality" in
prompt.lower()`. -/
def quality_cue (p : String) : Bool :=
  pyIn "проверь" (pyLower p) || pyIn "quality" (pyLower p)

/-- C1 (counterexample): a decision with `should_engage = true` and a
non-null action type — the empty string — inserts NO message row, because
the Python guard `result.get("should_engage") and
result.get("action", {}).get("type")` tests truthiness and `""` is falsy.
The claim as stated ("a non-null action type … exactly one row") is
therefore false at this input. -/
theorem c1_counterexample :
    pyDictGet (Value.obj [("should_engage", .b true), ("action", .obj [("type", .s "")])])
        "should_engage" .null = .ok (.b true)
    ∧ pyDictGet (Value.obj [("type", .s "")]) "type" .null = .ok (.s "")
    ∧ (process_decision ⟨1, 10000⟩ ⟨[], [], [], []⟩ "u1"
          (.obj [("should_engage", .b true), ("action", .obj [("type", .s "")])]) "NOW").1.messages
        = [] :=
  ⟨rfl, rfl, rfl⟩

/-- C1 (amended): in the message-creation step of `handle_event` (main.py
lines 128-137), a decision whose `should_engage` is `false` never inserts
a message row, and a decision whose `should_engage` is `true` with a
truthy (non-null, and for strings non-empty) action type inserts exactly
one row for that user with status `"pending"`. -/
theorem c1_message_guard (cfg : AppSettings) (st : DB) (uid now : String) (result : Value) :
    (pyDictGet result "should_engage" .null = .ok (.b false) →
        (process_decision cfg st uid result now).1.messages = st.messages)
    ∧ (∀ act t, pyDictGet result "should_engage" .null = .ok (.b true) →
        pyDictGet result "action" (.obj []) = .ok act →
        pyDictGet act "type" .null = .ok t → truthy t = true →
        ∃ subj body,
          (process_decision cfg st uid result now).1.messages
            = st.messages ++ [⟨uid, t, subj, body, "pending", now⟩]) := by
  constructor
  · intro h1
    rw [process_decision_skip cfg st uid now result (.b false) h1 rfl]
  · intro act t h1 h2 h3 h4
    obtain ⟨subj, body, _, _, heq⟩ :=
      process_decision_engage cfg st uid now result act (.b true) t h1 rfl h2 h3 h4
    exact ⟨subj, body, by rw [heq]⟩

/-- C1 (witness): both halves of `c1_message_guard` at concrete inputs. -/
theorem c1_message_guard_witness :
    (process_decision ⟨1, 10000⟩ ⟨[], [], [], []⟩ "u1"
        (.obj [("should_engage", .b false)]) "NOW").1.messages = []
    ∧ ∃ subj body,
        (process_decision ⟨1, 10000⟩ ⟨[], [], [], []⟩ "u1"
          (.obj [("should_engage", .b true), ("action", .obj [("type", .s "email")])])
          "NOW").1.messages
          = [⟨"u1", .s "email", subj, body, "pending", "NOW"⟩] :=
  ⟨(c1_message_guard ⟨1, 10000⟩ ⟨[], [], [], []⟩ "u1" "NOW"
      (.obj [("should_engage", .b false)])).1 rfl,
   (c1_message_guard ⟨1, 10000⟩ ⟨[], [], [], []⟩ "u1" "NOW"
      (.obj [("should_engage", .b true), ("action", .obj [("type", .s "email")])])).2
      (.obj [("type", .s "email")]) (.s "email") rfl rfl rfl (by decide)⟩

/-- C2 (counterexample): on a 200 response whose content is the JSON text
`[1, 2]`, `json.loads` yields the list `[1, 2]` and `_call_llm` returns it
as-is — the result is not a dictionary, so "returns a result dictionary"
is false for this call. -/
theorem c2_counterexample :
    _call_llm "sk-key" (.resp 200 "[1, 2]" (some (.arr [.num 1, .num 2]))) "p" "s"
      = .arr [.num 1, .num 2]
    ∧ ∀ kvs, Value.arr [.num 1, .num 2] ≠ .obj kvs :=
  ⟨rfl, fun _ h => Value.noConfusion h⟩

/-- C2 (amended): `_call_llm` always returns a result and never raises:
with no API key it skips the network and returns the mock; on any
exception inside the call (transport failure or malformed response) or on
a non-200 status it returns the mock; on a 200 response it returns the
parsed JSON value as-is (whatever its shape) or wraps unparseable content
as a text/raw dictionary. -/
theorem c2_call_llm_fallback (api_key prompt sysm : String) (net : NetOutcome) :
    (api_key = "" → _call_llm api_key net prompt sysm = _mock_response prompt)
    ∧ (∀ m, net = .exc m → _call_llm api_key net prompt sysm = _mock_response prompt)
    ∧ (∀ status content parsed, net = .resp status content parsed → status ≠ 200 →
        _call_llm api_key net prompt sysm = _mock_response prompt)
    ∧ (∀ content, api_key ≠ "" → net = .resp 200 content none →
        _call_llm api_key net prompt sysm = .obj [("text", .s content), ("raw", .s content)])
    ∧ (∀ content v, api_key ≠ "" → net = .resp 200 content (some v) →
        _call_llm api_key net prompt sysm = v) := by
  refine ⟨?_, ?_, ?_, ?_, ?_⟩
  · intro hk; simp [_call_llm, hk]
  · intro m hm; subst hm
    by_cases hk : api_key = "" <;> simp [_call_llm, hk]
  · intro status content parsed hnet hs; subst hnet
    by_cases hk : api_key = "" <;> simp [_call_llm, hk, hs]
  · intro content hk hnet; subst hnet
    simp [_call_llm, hk]
  · intro content v hk hnet; subst hnet
    simp [_call_llm, hk]

/-- C2 (witness): the no-key and non-success branches of
`c2_call_llm_fallback` at concrete inputs. -/
theorem c2_call_llm_fallback_witness :
    _call_llm "" (.exc "connection refused") "p" "s" = _mock_response "p"
    ∧ _call_llm "sk-key" (.resp 500 "oops" none) "p" "s" = _mock_response "p"
    ∧ _call_llm "sk-key" (.resp 200 "not json" none) "p" "s"
        = .obj [("text", .s "not json"), ("raw", .s "not json")] :=
  ⟨(c2_call_llm_fallback "" "p" "s" (.exc "connection refused")).1 rfl,
   (c2_call_llm_fallback "sk-key" "p" "s" (.resp 500 "oops" none)).2.2.1
      500 "oops" none rfl (by decide),
   (c2_call_llm_fallback "sk-key" "p" "s" (.resp 200 "not json" none)).2.2.2.1
      "not json" (by decide) rfl⟩

/-- C3: `get_prompt_template` returns the stored active template when one
exists for the name (the `prompts.name` column is UNIQUE, hence the Nodup
hypothesis), the non-empty hardcoded default for `"decision_agent"` and
`"text_generator"` when no active row exists, and `""` for any other
name; being a total function, it never raises. -/
theorem c3_get_prompt_template (store : List PromptRow) (name : String)
    (hU : (store.map PromptRow.name).Nodup) :
    (∀ r ∈ store, r.name = name → r.is_active = true →
        get_prompt_template store name = r.template)
    ∧ ((∀ r ∈ store, r.name = name → r.is_active = false) →
        get_prompt_template store name = _get_default_prompt name
        ∧ ((name = "decision_agent" ∨ name = "text_generator") →
            get_prompt_template store name ≠ "")
        ∧ (name ≠ "decision_agent" → name ≠ "text_generator" →
            get_prompt_template store name = "")) := by
  constructor
  · intro r hr hname hact
    cases hf : store.find? (fun q => q.name == name && q.is_active) with
    | none =>
      have := List.find?_eq_none.mp hf r hr
      simp [hname, hact] at this
    | some q =>
      have hmem : q ∈ store := List.mem_of_find?_eq_some hf
      have hq := List.find?_some hf
      have hqname : q.name = name := by
        simp only [Bool.and_eq_true, beq_iff_eq] at hq
        exact hq.1
      have heq : q = r :=
        List.inj_on_of_nodup_map hU hmem hr (by rw [hqname, hname])
      subst heq
      unfold get_prompt_template
      rw [hf]
  · intro hall
    have hf : store.find? (fun q => q.name == name && q.is_active) = none := by
      apply List.find?_eq_none.mpr
      intro q hq
      by_cases hn : q.name = name
      · simp [hn, hall q hq hn]
      · simp [hn]
    have hbase : get_prompt_template store name = _get_default_prompt name := by
      unfold get_prompt_template
      rw [hf]
    refine ⟨hbase, ?_, ?_⟩
    · rintro (h | h) <;> subst h <;> rw [hbase] <;> decide
    · intro h1 h2
      rw [hbase]
      unfold _get_default_prompt
      simp [h1, h2]

/-- C3 (witness): a stored active row wins; with no stored row the known
names fall back to the non-empty defaults and an unknown name to `""`. -/
theorem c3_get_prompt_template_witness :
    get_prompt_template [⟨"decision_agent", "STORED", true⟩] "decision_agent" = "STORED"
    ∧ get_prompt_template [] "decision_agent" = default_decision_agent_template
    ∧ get_prompt_template [] "quality_checker" = "" :=
  ⟨(c3_get_prompt_template [⟨"decision_agent", "STORED", true⟩] "decision_agent"
      (by decide)).1 ⟨"decision_agent", "STORED", true⟩ (by simp) rfl rfl,
   ((c3_get_prompt_template [] "decision_agent" (by decide)).2
      (by intro r hr; cases hr)).1,
   ((c3_get_prompt_template [] "quality_checker" (by decide)).2
      (by intro r hr; cases hr)).2.2 (by decide) (by decide)⟩

/-- C4: when the quality-checker template lookup yields the empty string,
`check_quality` returns the fixed verdict (`overall_score = 0.9`,
`approved = true`) for every message and context, independently of the
API key and of whatever the network would have answered — the LLM is
never consulted. -/
theorem c4_check_quality_static (store : List PromptRow) (api_key : String) (net : NetOutcome)
    (message : String) (user_context : Value)
    (h : get_prompt_template store "quality_checker" = "") :
    check_quality store api_key net message user_context = .ok default_quality_value
    ∧ pyDictGet default_quality_value "overall_score" .null = .ok (.num 0.9)
    ∧ pyDictGet default_quality_value "approved" .null = .ok (.b true) := by
  refine ⟨?_, rfl, rfl⟩
  unfold check_quality
  rw [h]
  simp

/-- C4 (witness): `c4_check_quality_static` on the freshly-empty store. -/
theorem c4_check_quality_static_witness :
    check_quality [] "" (.exc "down") "Buy now!!!" (.obj [("segment", .s "new")])
      = .ok default_quality_value :=
  (c4_check_quality_static [] "" (.exc "down") "Buy now!!!" (.obj [("segment", .s "new")]) rfl).1

/-- C5 (counterexample): a prompt consisting of the claimed cue word
`"должно"` does NOT select the fixed engagement decision — the code tests
`"решение"`/`"should_engage"`, so `"должно"` falls through to the generic
placeholder, which has no `should_engage` key at all (the engagement
decision has `should_engage = true`). -/
theorem c5_counterexample :
    _mock_response "должно" = .obj [("text", .s "Мок-ответ"), ("raw", .s "должно")]
    ∧ pyDictGet (_mock_response "должно") "should_engage" .null = .ok .null
    ∧ pyDictGet mock_decision_value "should_engage" .null = .ok (.b true) :=
  ⟨rfl, rfl, rfl⟩

/-- C5 (amended): `_mock_response` is a pure function of the prompt text,
dispatching on substring cues in order: `"решение"` (case-insensitive) or
`"should_engage"` selects the fixed engagement decision; otherwise
`"текст"` or `"напиши"` (case-insensitive) selects the fixed generated
text; otherwise `"проверь"` or `"quality"` (case-insensitive) selects the
fixed quality approval; any other prompt yields the generic placeholder
echoing the first 100 characters. -/
theorem c5_mock_dispatch (p : String) :
    (decision_cue p = true → _mock_response p = mock_decision_value)
    ∧ (decision_cue p = false → text_cue p = true → _mock_response p = mock_text_value)
    ∧ (decision_cue p = false → text_cue p = false → quality_cue p = true →
        _mock_response p = mock_quality_value)
    ∧ (decision_cue p = false → text_cue p = false → quality_cue p = false →
        _mock_response p = .obj [("text", .s "Мок-ответ"), ("raw", .s (pyTake 100 p))]) := by
  refine ⟨?_, ?_, ?_, ?_⟩
  · intro h1
    unfold decision_cue at h1
    simp [_mock_response, h1]
  · intro h1 h2
    unfold decision_cue at h1
    unfold text_cue at h2
    simp [_mock_response, h1, h2]
  · intro h1 h2 h3
    unfold decision_cue at h1
    unfold text_cue at h2
    unfold quality_cue at h3
    simp [_mock_response, h1, h2, h3]
  · intro h1 h2 h3
    unfold decision_cue at h1
    unfold text_cue at h2
    unfold quality_cue at h3
    simp [_mock_response, h1, h2, h3]

/-- C5 (witness): one prompt per dispatch branch. -/
theorem c5_mock_dispatch_witness :
    _mock_response "решение" = mock_decision_value
    ∧ _mock_response "текст" = mock_text_value
    ∧ _mock_response "проверь" = mock_quality_value
    ∧ _mock_response "hello" = .obj [("text", .s "Мок-ответ"), ("raw", .s "hello")] :=
  ⟨(c5_mock_dispatch "решение").1 (by decide),
   (c5_mock_dispatch "текст").2.1 (by decide) (by decide),
   (c5_mock_dispatch "проверь").2.2.1 (by decide) (by decide) (by decide),
   (c5_mock_dispatch "hello").2.2.2 (by decide) (by decide) (by decide)⟩

/-- C6: with no API key and the seeded `decision_agent` template active,
processing the event `{user_id: "u1", event: "cart_abandon", timestamp: T}`
does NOT produce the claimed decision-and-message: `make_decision` calls
`json.dumps(event.dict())`, the pydantic `timestamp` field is a `datetime`
object, and `json.dumps` raises `TypeError` before any prompt is built, so
the request fails and no message row is inserted (the claim/spec example
describes the clearly intended behavior; the unserializable `datetime` is
the code's slip). -/
theorem c6_pipeline_type_error (cfg : AppSettings) (net : NetOutcome)
    (T now : String) (recent : List Value) :
    (handle_event cfg "" net ⟨[], [], [], seeded_prompts⟩
        ⟨"u1", "cart_abandon", none, T, .obj []⟩ recent now).2
      = .error "TypeError: Object of type datetime is not JSON serializable"
    ∧ (handle_event cfg "" net ⟨[], [], [], seeded_prompts⟩
        ⟨"u1", "cart_abandon", none, T, .obj []⟩ recent now).1.messages = [] :=
  ⟨rfl, rfl⟩

/-- `decide_and_store` (the post-insert tail of `handle_event`) never
touches the `users` or `events` tables. -/
theorem decide_and_store_preserves (cfg : AppSettings) (api_key : String) (net : NetOutcome)
    (st : DB) (ev : EventIn) (recent : List Value) (profile : Value) (now : String) :
    (decide_and_store cfg api_key net st ev recent profile now).1.users = st.users ∧
    (decide_and_store cfg api_key net st ev recent profile now).1.events = st.events := by
  unfold decide_and_store
  cases hm : make_decision st.prompts api_key net profile (event_dict_value ev) (.arr recent) with
  | error e => exact ⟨rfl, rfl⟩
  | ok result =>
    exact ⟨(process_decision_preserves cfg st ev.user_id result now).1,
           (process_decision_preserves cfg st ev.user_id result now).2.1⟩

/-- When the event's `user_id` is unknown, `handle_event` commits the event
row and the fresh user row and proceeds with the constructed 4-key profile
dict (main.py lines 90-110). -/
theorem handle_event_unseen (cfg : AppSettings) (api_key : String) (net : NetOutcome)
    (st : DB) (ev : EventIn) (recent : List Value) (now : String) (ps : String)
    (hp : jsonDumps ev.properties = .ok ps)
    (hf : st.users.find? (fun u => u.user_id == ev.user_id) = none) :
    handle_event cfg api_key net st ev recent now =
      decide_and_store cfg api_key net
        ⟨st.users ++ [⟨ev.user_id, "User_" ++ ev.user_id, none, none, "new", 0, none, now⟩],
         st.events ++ [⟨ev.user_id, ev.event, ev.product_id, ev.timestamp, ps⟩],
         st.messages, st.prompts⟩
        ev recent
        (.obj [("user_id", .s ev.user_id), ("name", .s ("User_" ++ ev.user_id)),
               ("segment", .s "new"), ("total_spent", .num 0)]) now := by
  unfold handle_event
  rw [hp]
  simp only [hf]

/-- When the event's `user_id` is already present, `handle_event` commits
only the event row and proceeds with the stored row as the profile
(main.py lines 111-112). -/
theorem handle_event_seen (cfg : AppSettings) (api_key : String) (net : NetOutcome)
    (st : DB) (ev : EventIn) (recent : List Value) (now : String) (ps : String) (u : UserRow)
    (hp : jsonDumps ev.properties = .ok ps)
    (hf : st.users.find? (fun w => w.user_id == ev.user_id) = some u) :
    handle_event cfg api_key net st ev recent now =
      decide_and_store cfg api_key net
        ⟨st.users, st.events ++ [⟨ev.user_id, ev.event, ev.product_id, ev.timestamp, ps⟩],
         st.messages, st.prompts⟩
        ev recent (user_row_value u) now := by
  unfold handle_event
  rw [hp]
  simp only [hf]

/-- C7: an event from an unseen `user_id` adds exactly one user row with
segment `"new"` and `total_spent` 0, and exactly one event row (both are
committed before the decision step can raise); an event from a known
`user_id` leaves the `users` table unchanged.  The hypothesis that the
event's `properties` serialize always holds for requests: `properties` is
parsed from the JSON body. -/
theorem c7_user_and_event_rows (cfg : AppSettings) (api_key : String) (net : NetOutcome)
    (st : DB) (ev : EventIn) (recent : List Value) (now : String) (ps : String)
    (hp : jsonDumps ev.properties = .ok ps) :
    ((∀ u ∈ st.users, u.user_id ≠ ev.user_id) →
        (handle_event cfg api_key net st ev recent now).1.users
          = st.users ++ [⟨ev.user_id, "User_" ++ ev.user_id, none, none, "new", 0, none, now⟩]
        ∧ (handle_event cfg api_key net st ev recent now).1.events
          = st.events ++ [⟨ev.user_id, ev.event, ev.product_id, ev.timestamp, ps⟩])
    ∧ ((∃ u ∈ st.users, u.user_id = ev.user_id) →
        (handle_event cfg api_key net st ev recent now).1.users = st.users) := by
  constructor
  · intro hnew
    have hf : st.users.find? (fun u => u.user_id == ev.user_id) = none := by
      apply List.find?_eq_none.mpr
      intro u hu
      simp [hnew u hu]
    rw [handle_event_unseen cfg api_key net st ev recent now ps hp hf]
    constructor
    · exact (decide_and_store_preserves cfg api_key net _ ev recent _ now).1
    · exact (decide_and_store_preserves cfg api_key net _ ev recent _ now).2
  · intro hseen
    cases hf : st.users.find? (fun u => u.user_id == ev.user_id) with
    | none =>
      obtain ⟨u, hu, hid⟩ := hseen
      have := List.find?_eq_none.mp hf u hu
      simp [hid] at this
    | some u =>
      rw [handle_event_seen cfg api_key net st ev recent now ps u hp hf]
      exact (decide_and_store_preserves cfg api_key net _ ev recent _ now).1

/-- C7 (witness): a first event from `"u7"` on an empty database creates
the user row and the event row. -/
theorem c7_user_and_event_rows_witness :
    (handle_event ⟨1, 10000⟩ "" (.exc "down") ⟨[], [], [], []⟩
        ⟨"u7", "page_view", none, "T0", .obj []⟩ [] "NOW").1.users
      = [⟨"u7", "User_u7", none, none, "new", 0, none, "NOW"⟩]
    ∧ (handle_event ⟨1, 10000⟩ "" (.exc "down") ⟨[], [], [], []⟩
        ⟨"u7", "page_view", none, "T0", .obj []⟩ [] "NOW").1.events
      = [⟨"u7", "page_view", none, "T0", "\x7b\x7d"⟩] :=
  (c7_user_and_event_rows ⟨1, 10000⟩ "" (.exc "down") ⟨[], [], [], []⟩
      ⟨"u7", "page_view", none, "T0", .obj []⟩ [] "NOW" "\x7b\x7d" rfl).1
    (by intro u hu; cases hu)

/-- C8: no rate-limit or VIP policy is enforced: `handle_event` and its
message-creation step compute the same result for any values of the
policy constants (`MAX_MESSAGES_PER_HOUR`, `VIP_THRESHOLD`), and two
engaging decisions processed back-to-back — at arbitrary times, in
particular within the same hour, and regardless of the user's prior
messages — each append one pending message row. -/
theorem c8_no_rate_limit (c₁ c₂ : AppSettings) (api_key : String) (net : NetOutcome)
    (st : DB) (ev : EventIn) (recent : List Value)
    (uid₁ uid₂ now now₁ now₂ : String) (r₁ r₂ se₁ act₁ t₁ se₂ act₂ t₂ : Value)
    (h11 : pyDictGet r₁ "should_engage" .null = .ok se₁) (h12 : truthy se₁ = true)
    (h13 : pyDictGet r₁ "action" (.obj []) = .ok act₁)
    (h14 : pyDictGet act₁ "type" .null = .ok t₁) (h15 : truthy t₁ = true)
    (h21 : pyDictGet r₂ "should_engage" .null = .ok se₂) (h22 : truthy se₂ = true)
    (h23 : pyDictGet r₂ "action" (.obj []) = .ok act₂)
    (h24 : pyDictGet act₂ "type" .null = .ok t₂) (h25 : truthy t₂ = true) :
    handle_event c₁ api_key net st ev recent now = handle_event c₂ api_key net st ev recent now
    ∧ process_decision c₁ st uid₁ r₁ now₁ = process_decision c₂ st uid₁ r₁ now₁
    ∧ ∃ m₁ m₂ : MsgRow,
        (process_decision c₂ (process_decision c₁ st uid₁ r₁ now₁).1 uid₂ r₂ now₂).1.messages
          = st.messages ++ [m₁, m₂]
        ∧ m₁.status = "pending" ∧ m₂.status = "pending" := by
  refine ⟨handle_event_cfg_eq c₁ c₂ api_key net st ev recent now,
          process_decision_cfg_eq c₁ c₂ st uid₁ r₁ now₁, ?_⟩
  obtain ⟨s₁, b₁, _, _, heq₁⟩ :=
    process_decision_engage c₁ st uid₁ now₁ r₁ act₁ se₁ t₁ h11 h12 h13 h14 h15
  obtain ⟨s₂, b₂, _, _, heq₂⟩ :=
    process_decision_engage c₂
      { st with messages := st.messages ++ [⟨uid₁, t₁, s₁, b₁, "pending", now₁⟩] }
      uid₂ now₂ r₂ act₂ se₂ t₂ h21 h22 h23 h24 h25
  refine ⟨⟨uid₁, t₁, s₁, b₁, "pending", now₁⟩, ⟨uid₂, t₂, s₂, b₂, "pending", now₂⟩, ?_, rfl, rfl⟩
  rw [heq₁]
  show (process_decision c₂
      { st with messages := st.messages ++ [⟨uid₁, t₁, s₁, b₁, "pending", now₁⟩] }
      uid₂ r₂ now₂).1.messages = _
  rw [heq₂]
  simp

/-- C8 (witness): two engaging email decisions, same timestamps, policy
constants set to their defaults — two rows are appended anyway. -/
theorem c8_no_rate_limit_witness :
    ∃ m₁ m₂ : MsgRow,
      (process_decision ⟨1, 10000⟩
          (process_decision ⟨1, 10000⟩ ⟨[], [], [], []⟩ "u1"
            (.obj [("should_engage", .b true), ("action", .obj [("type", .s "email")])])
            "2024-01-01T10:00:00").1
          "u1"
          (.obj [("should_engage", .b true), ("action", .obj [("type", .s "push")])])
          "2024-01-01T10:30:00").1.messages
        = [m₁, m₂]
      ∧ m₁.status = "pending" ∧ m₂.status = "pending" :=
  (c8_no_rate_limit ⟨1, 10000⟩ ⟨1, 10000⟩ "" (.exc "down") ⟨[], [], [], []⟩
      ⟨"u1", "e", none, "T", .obj []⟩ [] "u1" "u1" "N"
      "2024-01-01T10:00:00" "2024-01-01T10:30:00"
      (.obj [("should_engage", .b true), ("action", .obj [("type", .s "email")])])
      (.obj [("should_engage", .b true), ("action", .obj [("type", .s "push")])])
      (.b true) (.obj [("type", .s "email")]) (.s "email")
      (.b true) (.obj [("type", .s "push")]) (.s "push")
      rfl rfl rfl rfl (by decide) rfl rfl rfl rfl (by decide)).2.2

/-- C9: with no active `decision_agent` row stored, `make_decision` falls
back to the hardcoded default template and raises for every input:
whenever the three context arguments serialize, the unescaped braces in
the default template's JSON example make `str.format` fail (a `KeyError`
on the pseudo-field the brace opens), so no prompt is ever produced; and
even when an argument fails to serialize the call still raises (the
`TypeError` from `json.dumps` preempts the format error). -/
theorem c9_default_template_format_error (store : List PromptRow) (api_key : String)
    (net : NetOutcome) (user_profile event recent_activity : Value)
    (hno : ∀ r ∈ store, r.name = "decision_agent" → r.is_active = false) :
    (∃ e, make_decision store api_key net user_profile event recent_activity = .error e)
    ∧ (∀ up ev ra, jsonDumps user_profile = .ok up → jsonDumps event = .ok ev →
        jsonDumps recent_activity = .ok ra →
        ∃ e, pyFormat default_decision_agent_template
              [("user_profile", up), ("event", ev), ("recent_activity", ra)] = .error e
          ∧ make_decision store api_key net user_profile event recent_activity = .error e) := by
  have htmpl : get_prompt_template store "decision_agent" = default_decision_agent_template := by
    unfold get_prompt_template
    have hf : store.find? (fun q => q.name == "decision_agent" && q.is_active) = none := by
      apply List.find?_eq_none.mpr
      intro q hq
      by_cases hn : q.name = "decision_agent"
      · simp [hn, hno q hq hn]
      · simp [hn]
    rw [hf]
    rfl
  have hfmt : ∀ up ev ra : String,
      ∃ e, pyFormat default_decision_agent_template
        [("user_profile", up), ("event", ev), ("recent_activity", ra)] = .error e := by
    intro up ev ra
    apply pyFormat_error_of_fmtBad
    show fmtBad default_decision_agent_template ["user_profile", "event", "recent_activity"] = true
    decide
  constructor
  · cases h1 : jsonDumps user_profile with
    | error e => exact ⟨e, by unfold make_decision; rw [htmpl, h1]⟩
    | ok up =>
      cases h2 : jsonDumps event with
      | error e => exact ⟨e, by unfold make_decision; rw [htmpl, h1, h2]⟩
      | ok ev =>
        cases h3 : jsonDumps recent_activity with
        | error e => exact ⟨e, by unfold make_decision; rw [htmpl, h1, h2, h3]⟩
        | ok ra =>
          obtain ⟨e, he⟩ := hfmt up ev ra
          exact ⟨e, by unfold make_decision; rw [htmpl, h1, h2, h3]; simp only [he]⟩
  · intro up ev ra h1 h2 h3
    obtain ⟨e, he⟩ := hfmt up ev ra
    exact ⟨e, he, by unfold make_decision; rw [htmpl, h1, h2, h3]; simp only [he]⟩

/-- C9 (witness): `make_decision` on an empty prompt store raises for a
concrete serializable input. -/
theorem c9_default_template_format_error_witness :
    ∃ e, make_decision [] "" (.exc "down") (.obj []) (.obj []) (.arr []) = .error e :=
  (c9_default_template_format_error [] "" (.exc "down") (.obj []) (.obj []) (.arr [])
    (by intro r hr; cases hr)).1

/-- C10: a decision of the shape the spec itself allows — `should_engage =
true` with `action` explicitly `null` — makes the message-creation step of
`handle_event` raise `AttributeError` instead of skipping message
creation: `result.get("action", {})` returns the stored `None` (the
default only applies to a missing key), and `.get("type")` on `None`
fails.  No message row is inserted. -/
theorem c10_action_none_attribute_error (cfg : AppSettings) (st : DB) (uid now : String) :
    (process_decision cfg st uid (.obj [("should_engage", .b true), ("action", .null)]) now).2
      = .error "AttributeError: NoneType object has no attribute get"
    ∧ (process_decision cfg st uid
        (.obj [("should_engage", .b true), ("action", .null)]) now).1.messages
      = st.messages :=
  ⟨rfl, rfl⟩
